import Mathlib

/-!
Verification of the PIP VC service core (credential encoding, pod persistence,
registry routes) against its natural-language specification.

The JavaScript source is shallowly embedded: the two credential encoders
(`VcService.generateJsonLdVc`, `VcService.generateTurtleVc`), the pod
persistence orchestrator (`PodService.storeCredential` with its helpers
`updateCredentialsIndex` and `setCredentialPermissions`), and the
`/vc/issue` and `/vc/revoke` route handlers are translated to pure Lean
functions.  Wall-clock reads (`new Date().toISOString()`) become an explicit
`now : String` parameter, the random signature bytes of the Turtle proof
block become an explicit `rand : String` parameter, and the fallible remote
PUT of the Pod Client becomes an explicit environment `PodEnv` deciding which
URLs accept writes, with the successfully written resources threaded through
a `PodState`.
-/

namespace PipVc

/-! ## String-search helpers (used to state "the document contains …") -/

/-- `startsWithC sub l` decides whether the character list `sub` is an initial
segment of `l`. -/
def startsWithC : List Char → List Char → Bool
  | [], _ => true
  | _ :: _, [] => false
  | a :: as, b :: bs => a == b && startsWithC as bs

/-- `hasSubC sub l` decides whether `sub` occurs contiguously inside `l`. -/
def hasSubC (sub : List Char) : List Char → Bool
  | [] => startsWithC sub []
  | c :: cs => startsWithC sub (c :: cs) || hasSubC sub cs

/-- `strContains s sub` decides whether the string `sub` occurs contiguously
inside the string `s`. -/
def strContains (s sub : String) : Bool :=
  hasSubC sub.toList s.toList

/-! ## A partial syntactic validity check for Turtle literals

`ttlLiteralsOk` scans a document and checks that double-quoted literals are
well-delimited: every `"` toggles in/out of a literal, a backslash inside a
literal escapes the next character, and a raw newline may not occur inside a
literal.  Any document produced by a Turtle serializer that escapes its string
literals passes this check; a document with an unescaped quote or newline
inside a literal fails it. -/

/-- Scanner state: outside any literal, inside a literal, or inside a literal
right after a backslash. -/
inductive ScanSt where
  | outside
  | inside
  | esc
  deriving DecidableEq, Repr

/-- One scanner step; `none` rejects the document. -/
def ttlStep : ScanSt → Char → Option ScanSt
  | .outside, c => if c = '\"' then some .inside else some .outside
  | .inside, c =>
      if c = '\\' then some .esc
      else if c = '\"' then some .outside
      else if c = '\n' then none
      else some .inside
  | .esc, c => if c = '\n' then none else some .inside

/-- Run the scanner over a character list. -/
def ttlRun : ScanSt → List Char → Option ScanSt
  | st, [] => some st
  | st, c :: cs =>
      match ttlStep st c with
      | none => none
      | some st' => ttlRun st' cs

/-- A document passes when the scan survives and ends outside any literal. -/
def ttlLiteralsOk (s : String) : Bool :=
  ttlRun .outside s.toList == some .outside

/-! ## Data model

`JValue` covers the JSON values the service actually places in a credential
subject: strings, arrays of strings (the preview components list), and flat
string-to-string objects (the issue-path components breakdown). -/

inductive JValue where
  | str (s : String)
  | arr (xs : List String)
  | obj (fields : List (String × String))
  deriving DecidableEq, Repr

/-- The benefit-award claim set handed to the encoders (`benefitData` in the
source).  `components` and `totalWeeklyAmount` are optional, mirroring the
`if (benefitData.components)` / `if (benefitData.totalWeeklyAmount)` guards at
part_002:311-317. -/
structure BenefitData where
  benefitType : String
  amount : String
  assessmentDate : String
  components : Option JValue := none
  totalWeeklyAmount : Option String := none
  deriving DecidableEq, Repr

/-- The `vcData` record passed to both encoders (part_002:284, 331). -/
structure VcData where
  id : String
  webid : String
  benefitData : BenefitData
  preview : Bool := false
  deriving DecidableEq, Repr

/-- `process.env.SERVICE_DID_WEB || "did:web:pip.gov.uk"`: the deployment's
issuer identifier, modelled as set to its default (the test suite sets the
variable to exactly this value). -/
def serviceDidWeb : String := "did:web:pip.gov.uk"

/-- The proof envelope attached by `generateProof` (part_002:367-380). -/
structure Proof where
  type : String
  created : String
  proofPurpose : String
  verificationMethod : String
  jws : String
  deriving DecidableEq, Repr

/-- The JSON-LD credential document built by `generateJsonLdVc`
(part_002:286-324).  The `@context` array's two URL entries and its term-map
entry are kept as data; `credentialSubject` is the ordered field list the
source builds by object-literal insertion followed by conditional additions. -/
structure JsonLdVc where
  contextUrls : List String
  contextTerms : List (String × String)
  id : String
  type : List String
  issuer : String
  issuanceDate : String
  credentialSubject : List (String × JValue)
  proof : Option Proof := none
  deriving DecidableEq, Repr

/-- The fixed `@context` URLs (part_002:287-289). -/
def jsonLdContextUrls : List String :=
  ["https://www.w3.org/2018/credentials/v1", "https://schema.org/"]

/-- The fixed `@context` term map (part_002:290-296). -/
def jsonLdContextTerms : List (String × String) :=
  [("PIPBenefitCredential", "https://gov.uk/schemas/PIPBenefitCredential"),
   ("benefitType", "https://schema.org/name"),
   ("amount", "https://schema.org/amount"),
   ("assessmentDate", "https://schema.org/dateCreated"),
   ("components", "https://gov.uk/schemas/benefitComponents")]

/-- Render a `JValue` as JSON text (stand-in for `JSON.stringify` on the
subtree; no proved property depends on its exact bytes). -/
def renderJValue : JValue → String
  | .str s => "\"" ++ s ++ "\""
  | .arr xs => "[" ++ String.intercalate ", " (xs.map (fun s => "\"" ++ s ++ "\"")) ++ "]"
  | .obj fs =>
      "\x7b" ++
        String.intercalate ", "
          (fs.map (fun p => "\"" ++ p.1 ++ "\": \"" ++ p.2 ++ "\"")) ++
      "\x7d"

/-- Serialize the unsigned credential content (stand-in for
`JSON.stringify(vc, null, 0)` inside `generateMockSignature`,
part_002:385-390; only its content-dependence matters to the properties
below, not its exact bytes). -/
def vcContentString (subject : List (String × JValue)) (id issuer issuanceDate : String) : String :=
  "\x7b\"id\": \"" ++ id ++ "\", \"issuer\": \"" ++ issuer ++
    "\", \"issuanceDate\": \"" ++ issuanceDate ++ "\", \"credentialSubject\": \x7b" ++
    String.intercalate ", "
      (subject.map (fun p => "\"" ++ p.1 ++ "\": " ++ renderJValue p.2)) ++
    "\x7d\x7d"

/-- The mock content digest (`sha256(...).substring(0, 16)` at
part_002:385-390), modelled as the serialized content itself: the digest's
exact bytes are irrelevant to every property below, only that the signature
is a function of the content. -/
def mockDigest (s : String) : String := s

/-- `generateProof` (part_002:367-380): proof envelope with the mock
content-derived signature, created at the encoding-time clock `now`. -/
def generateProof (content now : String) : Proof :=
  { type := "RsaSignature2018"
    created := now
    proofPurpose := "assertionMethod"
    verificationMethod := serviceDidWeb ++ "#key-1"
    jws := "mock-jws-signature-" ++ mockDigest content }

/-- The `credentialSubject` object built at part_002:302-317: the literal
fields `id`, `benefitType`, `amount`, `assessmentDate`, then `components`
and `totalWeeklyAmount` appended when present. -/
def credentialSubjectFields (vc : VcData) : List (String × JValue) :=
  let base : List (String × JValue) :=
    [("id", .str vc.webid),
     ("benefitType", .str vc.benefitData.benefitType),
     ("amount", .str vc.benefitData.amount),
     ("assessmentDate", .str vc.benefitData.assessmentDate)]
  let withComponents :=
    match vc.benefitData.components with
    | some c => base ++ [("components", c)]
    | none => base
  match vc.benefitData.totalWeeklyAmount with
  | some t => withComponents ++ [("totalWeeklyAmount", .str t)]
  | none => withComponents

/-- `VcService.generateJsonLdVc` (part_002:283-325).  The wall-clock read
`new Date().toISOString()` at part_002:301 is the explicit parameter `now`;
the proof is attached exactly when `preview` is false (part_002:320-322). -/
def generateJsonLdVc (vc : VcData) (now : String) : JsonLdVc :=
  let subject := credentialSubjectFields vc
  { contextUrls := jsonLdContextUrls
    contextTerms := jsonLdContextTerms
    id := vc.id
    type := ["VerifiableCredential", "PIPBenefitCredential"]
    issuer := serviceDidWeb
    issuanceDate := now
    credentialSubject := subject
    proof :=
      if vc.preview then none
      else some (generateProof (vcContentString subject vc.id serviceDidWeb now) now) }

/-! ## Turtle encoder

`VcService.generateTurtleVc` (part_002:330-362) is a template literal; it is
transliterated below as string concatenation.  The several
`new Date().toISOString()` reads inside one template evaluation are modelled
as the single instant `now`, and `crypto.randomBytes(16).toString('hex')` in
the proof block as the parameter `rand`. -/

/-- The `@prefix` header of the Turtle template (part_002:333-337). -/
def turtleHeader : String :=
  "@prefix cred: <https://www.w3.org/2018/credentials#> .\n@prefix schema: <http://schema.org/> .\n@prefix xsd: <http://www.w3.org/2001/XMLSchema#> .\n@prefix dc: <http://purl.org/dc/terms/> .\n@prefix rdf: <http://www.w3.org/1999/02/22-rdf-syntax-ns#> .\n\n"

/-- The optional `schema:totalAmount` clause (part_002:350-351): present
exactly when `benefitData.totalWeeklyAmount` is. -/
def totalAmountPart : Option String → String
  | some t => " ;\n    " ++ ("schema:totalAmount \"" ++ t ++ "\"")
  | none => ""

/-- The statement body of the Turtle template (part_002:339-350): the
credential node's type, issuer, subject, dates and claim values, with every
interpolated value copied verbatim.  (The concatenation is grouped around
each subject/predicate/object binding; the produced text is exactly the
source template's.) -/
def turtleBody (vc : VcData) (now : String) : String :=
  ("<" ++ vc.id ++ ">") ++
  ("\n    a cred:VerifiableCredential ;\n    rdf:type <https://gov.uk/schemas/PIPBenefitCredential> ;\n    cred:issuer <" ++
    serviceDidWeb ++ "> ;\n    ") ++
  ("cred:credentialSubject <" ++ vc.webid ++ ">") ++
  (" ;\n    cred:issuanceDate \"" ++ now ++
    "\"^^xsd:dateTime ;\n    dc:created \"" ++ now ++
    "\"^^xsd:dateTime ;\n    dc:title \"PIP Benefit Award Credential\" ;\n    dc:creator <" ++
    serviceDidWeb ++ "> ;\n    ") ++
  ("schema:benefitType \"" ++ vc.benefitData.benefitType ++ "\"") ++
  " ;\n    " ++
  ("schema:amount \"" ++ vc.benefitData.amount ++ "\"") ++
  " ;\n    " ++
  ("schema:dateCreated \"" ++ vc.benefitData.assessmentDate ++ "\"") ++
  "^^xsd:dateTime" ++
  totalAmountPart vc.benefitData.totalWeeklyAmount

/-- The `cred:proof [...]` block of the Turtle template (part_002:351-359),
emitted only for non-preview credentials; `rand` stands for the 16 random
hex-encoded bytes of the mock signature. -/
def turtleProofPart (now rand : String) : String :=
  " ;\n    cred:proof [\n        a cred:Proof ;\n        cred:type \"RsaSignature2018\" ;\n        cred:created \"" ++
  now ++
  "\"^^xsd:dateTime ;\n        cred:proofPurpose \"assertionMethod\" ;\n        cred:verificationMethod <" ++
  serviceDidWeb ++
  "#key-1> ;\n        cred:jws \"mock-signature-" ++ rand ++ "\"\n    ]"

/-- `VcService.generateTurtleVc` (part_002:330-362). -/
def generateTurtleVc (vc : VcData) (now rand : String) : String :=
  turtleHeader ++ turtleBody vc now ++
    (if vc.preview then "" else turtleProofPart now rand) ++ " ."

/-! ## Pod persistence

`PodService` (part_002:7-271).  The mock `putResource` always succeeds; in
production it is a fallible remote call (its `catch` wraps transport errors
as `HTTP PUT failed: …`, part_002:73-93, and the spec's Pod Client contract
declares `put` fallible).  The environment `PodEnv` injects the transport
outcome per target URL; successfully written resources accumulate in
`PodState`. -/

/-- Which PUT targets the (remote) pod accepts. -/
structure PodEnv where
  putOk : String → Bool

/-- The pod's contents: every successfully written `(url, content, mediaType)`. -/
structure PodState where
  written : List (String × String × String) := []
  deriving DecidableEq, Repr

/-- `PodService.putResource` (part_002:73-93): on success records the
resource, on transport failure raises `HTTP PUT failed: …` (the mock's
`catch` wrapping). -/
def putResource (env : PodEnv) (url content contentType : String)
    (st : PodState) : Except String PodState :=
  if env.putOk url then
    .ok { written := st.written ++ [(url, content, contentType)] }
  else
    .error "HTTP PUT failed: request failed"

/-- `new URL(rel, base).toString()` for a base URL ending in `/` and a
relative path, which is how the service always calls it. -/
def resolveUrl (base rel : String) : String := base ++ rel

/-- The index-entry document written by `updateCredentialsIndex`
(part_002:139-158); its exact bytes are irrelevant to the properties below. -/
def indexEntryText (podUrl vcId now : String) : String :=
  "@prefix ldp: <http://www.w3.org/ns/ldp#> .\n@prefix dc: <http://purl.org/dc/terms/> .\n@prefix cred: <https://www.w3.org/2018/credentials#> .\n\n<" ++
  resolveUrl podUrl "credentials/" ++ ">\n    ldp:contains <" ++ vcId ++
  ".jsonld> , <" ++ vcId ++ ".ttl> .\n\n<" ++ vcId ++
  ".jsonld>\n    a cred:VerifiableCredential ;\n    dc:created \"" ++ now ++
  "\" .\n\n<" ++ vcId ++
  ".ttl>\n    a cred:VerifiableCredential ;\n    dc:created \"" ++ now ++ "\" .\n"

/-- `PodService.updateCredentialsIndex` (part_002:134-167): writes the index
entry and swallows any failure in its own `catch` ("Don't fail the whole
operation if index update fails"), leaving the pod state unchanged. -/
def updateCredentialsIndex (env : PodEnv) (podUrl vcId now : String)
    (st : PodState) : PodState :=
  match putResource env (resolveUrl podUrl "credentials/index.ttl")
      (indexEntryText podUrl vcId now) "text/turtle" st with
  | .ok st' => st'
  | .error _ => st

/-! ### Access grants -/

/-- WAC access modes. -/
inductive AclMode where
  | read
  | write
  | control
  deriving DecidableEq, Repr

/-- The grantee of an authorization: a named agent or an agent class. -/
inductive AclAgent where
  | agent (uri : String)
  | agentClass (cls : String)
  deriving DecidableEq, Repr

/-- One `acl:Authorization` block. -/
structure AclAuth where
  label : String
  grantee : AclAgent
  accessTo : List String
  modes : List AclMode
  deriving DecidableEq, Repr

/-- The three authorizations of the ACL document generated by
`setCredentialPermissions` (part_002:177-198), as structured data: the owner
(the session user's webid) with Read/Write/Control, the fixed third party
EON with Read, and the authenticated-agent class with Read, each over both
format artifacts. -/
def credentialAcl (webid vcId : String) : List AclAuth :=
  [{ label := "owner"
     grantee := .agent webid
     accessTo := [vcId ++ ".jsonld", vcId ++ ".ttl"]
     modes := [.read, .write, .control] },
   { label := "eonAccess"
     grantee := .agent "https://eon.co.uk/did.json"
     accessTo := [vcId ++ ".jsonld", vcId ++ ".ttl"]
     modes := [.read] },
   { label := "publicRead"
     grantee := .agentClass "acl:AuthenticatedAgent"
     accessTo := [vcId ++ ".jsonld", vcId ++ ".ttl"]
     modes := [.read] }]

/-- Render one access mode as it appears in the ACL document. -/
def renderMode : AclMode → String
  | .read => "acl:Read"
  | .write => "acl:Write"
  | .control => "acl:Control"

/-- Render a grantee as its ACL predicate and object. -/
def renderGrantee : AclAgent → String
  | .agent uri => "acl:agent <" ++ uri ++ ">"
  | .agentClass cls => "acl:agentClass " ++ cls

/-- Render one authorization block. -/
def renderAuth (a : AclAuth) : String :=
  ":" ++ a.label ++ "\n    a acl:Authorization ;\n    " ++
  renderGrantee a.grantee ++ " ;\n    acl:accessTo " ++
  String.intercalate " , " (a.accessTo.map (fun r => "<" ++ r ++ ">")) ++
  " ;\n    acl:mode " ++
  String.intercalate " , " (a.modes.map renderMode) ++ " .\n"

/-- Render a whole ACL document. -/
def renderAcl (doc : List AclAuth) : String :=
  "@prefix acl: <http://www.w3.org/ns/auth/acl#> .\n@prefix : <#> .\n\n" ++
  String.intercalate "\n" (doc.map renderAuth)

/-- The ACL document text written by `setCredentialPermissions`
(part_002:177-198), transliterated from its template literal. -/
def aclText (webid vcId : String) : String :=
  "@prefix acl: <http://www.w3.org/ns/auth/acl#> .\n@prefix : <#> .\n\n:owner\n    a acl:Authorization ;\n    acl:agent <" ++
  webid ++ "> ;\n    acl:accessTo <" ++ vcId ++ ".jsonld> , <" ++ vcId ++
  ".ttl> ;\n    acl:mode acl:Read , acl:Write , acl:Control .\n\n:eonAccess\n    a acl:Authorization ;\n    acl:agent <https://eon.co.uk/did.json> ;\n    acl:accessTo <" ++
  vcId ++ ".jsonld> , <" ++ vcId ++
  ".ttl> ;\n    acl:mode acl:Read .\n\n:publicRead\n    a acl:Authorization ;\n    acl:agentClass acl:AuthenticatedAgent ;\n    acl:accessTo <" ++
  vcId ++ ".jsonld> , <" ++ vcId ++ ".ttl> ;\n    acl:mode acl:Read .\n"

/-- `PodService.setCredentialPermissions` (part_002:172-207): writes the ACL
document at `credentials/<vcId>.jsonld.acl` and swallows any failure in its
own `catch` ("Don't fail the whole operation if permission setting fails"). -/
def setCredentialPermissions (env : PodEnv) (podUrl vcId webid : String)
    (st : PodState) : PodState :=
  match putResource env (resolveUrl podUrl ("credentials/" ++ vcId ++ ".jsonld.acl"))
      (aclText webid vcId) "text/turtle" st with
  | .ok st' => st'
  | .error _ => st

/-- The success payload of `storeCredential` (part_002:57-63). -/
structure StoreOk where
  success : Bool
  jsonldLocation : String
  turtleLocation : String
  deriving DecidableEq, Repr

/-- Direct path of the JSON-LD artifact for a credential. -/
def jsonldUrl (podUrl vcId : String) : String :=
  resolveUrl podUrl ("credentials/" ++ vcId) ++ ".jsonld"

/-- Direct path of the Turtle artifact for a credential. -/
def ttlUrl (podUrl vcId : String) : String :=
  resolveUrl podUrl ("credentials/" ++ vcId) ++ ".ttl"

/-- `PodService.storeCredential` (part_002:39-68): PUT the JSON-LD artifact,
then the Turtle artifact, then best-effort index update and ACL write.  The
surrounding `catch` turns any escaped failure into the single error
`Failed to store credential: …`; only the two format writes can escape,
since the index and permission helpers swallow their own failures. -/
def storeCredential (env : PodEnv) (podUrl vcId jsonLdText turtleText webid now : String)
    (st : PodState) : Except String StoreOk × PodState :=
  match putResource env (jsonldUrl podUrl vcId) jsonLdText "application/ld+json" st with
  | .error m => (.error ("Failed to store credential: " ++ m), st)
  | .ok st1 =>
    match putResource env (ttlUrl podUrl vcId) turtleText "text/turtle" st1 with
    | .error m => (.error ("Failed to store credential: " ++ m), st1)
    | .ok st2 =>
      let st3 := updateCredentialsIndex env podUrl vcId now st2
      let st4 := setCredentialPermissions env podUrl vcId webid st3
      (.ok { success := true
             jsonldLocation := jsonldUrl podUrl vcId
             turtleLocation := ttlUrl podUrl vcId }, st4)

/-! ## Registry and routes

The `/vc/revoke` and `/vc/issue` Express handlers (part_001:214-287 and
342-383).  `req.user.webid` is the already-authenticated requester. -/

/-- JavaScript truthiness of an optional string body field: absent or empty
is falsy. -/
def jsTruthyStr : Option String → Bool
  | none => false
  | some s => !(s == "")

/-- A registry entry (credential id, owner, status).  The source keeps no
credential registry at all; this abstract state is threaded through the
revoke route only to record that the route never touches it. -/
structure RegEntry where
  id : String
  owner : String
  status : String
  deriving DecidableEq, Repr

/-- The (abstract) credential registry. -/
abbrev Registry := List RegEntry

/-- Responses of the revoke route.  `missingId` and `missingReason` are the
400 responses `Missing VC ID` and `Revocation reason required`
(part_001:346-356, the latter being the spec's `InvalidReason`); `forbidden`
and `notFound` are the spec's contract outcomes (§4.5), included for
comparison — the source route never produces them. -/
inductive RevokeResponse where
  | missingId
  | missingReason
  | forbidden
  | notFound
  | success (vcId revokedBy reason : String)
  deriving DecidableEq, Repr

/-- The `/vc/revoke` handler (part_001:342-383): after the two presence
checks it only logs and answers success — it reads and writes no store, so
the registry passes through unchanged, and it never compares the requester
against an owner nor looks the id up. -/
def revokeRoute (reg : Registry) (webid : String) (vcId reason : Option String) :
    RevokeResponse × Registry :=
  if jsTruthyStr vcId = false then (.missingId, reg)
  else if jsTruthyStr reason = false then (.missingReason, reg)
  else (.success (vcId.getD "") webid (reason.getD ""), reg)

/-- JavaScript values a JSON request-body field can hold (the subset needed
for the `confirm` flag), with their truthiness. -/
inductive JsVal where
  | undef
  | nullv
  | boolean (b : Bool)
  | str (s : String)
  | num (n : Int)
  deriving DecidableEq, Repr

/-- JavaScript truthiness. -/
def jsTruthy : JsVal → Bool
  | .undef => false
  | .nullv => false
  | .boolean b => b
  | .str s => !(s == "")
  | .num n => !(n == 0)

/-- `PodService.discoverPodUrl` (part_002:12-34): derive
`scheme://host/storage/` from the WebID, falling back to the default PDS
base when the WebID does not parse as a URL. -/
def discoverPodUrl (webid : String) : String :=
  match webid.splitOn "/" with
  | scheme :: "" :: host :: _ => scheme ++ "//" ++ host ++ "/storage/"
  | _ => "https://pds.solid.example.org"

/-- Render a proof envelope as JSON text (part of the `JSON.stringify`
stand-in; no proved property depends on these bytes). -/
def renderProof (p : Proof) : String :=
  "\x7b\"type\": \"" ++ p.type ++ "\", \"created\": \"" ++ p.created ++
  "\", \"proofPurpose\": \"" ++ p.proofPurpose ++ "\", \"verificationMethod\": \"" ++
  p.verificationMethod ++ "\", \"jws\": \"" ++ p.jws ++ "\"\x7d"

/-- Stand-in for `JSON.stringify(jsonLdVc, null, 2)` (part_002:46): the
stored JSON-LD artifact text.  The exact whitespace of the source's
pretty-printing is not reproduced; no proved property depends on these
bytes. -/
def jsonLdStringify (vc : JsonLdVc) : String :=
  "\x7b\"@context\": [" ++
  String.intercalate ", " (vc.contextUrls.map (fun u => "\"" ++ u ++ "\"")) ++
  ", \x7b" ++
  String.intercalate ", "
    (vc.contextTerms.map (fun p => "\"" ++ p.1 ++ "\": \"" ++ p.2 ++ "\"")) ++
  "\x7d], \"id\": \"" ++ vc.id ++ "\", \"type\": [" ++
  String.intercalate ", " (vc.type.map (fun t => "\"" ++ t ++ "\"")) ++
  "], \"issuer\": \"" ++ vc.issuer ++ "\", \"issuanceDate\": \"" ++
  vc.issuanceDate ++ "\", \"credentialSubject\": \x7b" ++
  String.intercalate ", "
    (vc.credentialSubject.map (fun p => "\"" ++ p.1 ++ "\": " ++ renderJValue p.2)) ++
  "\x7d" ++
  (match vc.proof with
   | some p => ", \"proof\": " ++ renderProof p
   | none => "") ++
  "\x7d"

/-- The hard-coded benefit data of the issue path (part_001:230-239). -/
def issueBenefitData : BenefitData :=
  { benefitType := "PIP"
    amount := "£90.10/week"
    assessmentDate := "2025-01-15"
    totalWeeklyAmount := some "£162.90"
    components := some (.obj
      [("dailyLiving", "Standard - £68.10"), ("mobility", "Enhanced - £94.80")]) }

/-- Responses of the issue route: the 400 `Confirmation required` rejection
(part_001:218-223), the 201 success payload, and the 500 failure
(part_001:280-286). -/
inductive IssueResponse where
  | confirmationRequired
  | issued (vcId : String) (vc : JsonLdVc) (storageLocation : String)
  | failure (msg : String)
  deriving DecidableEq, Repr

/-- The `/vc/issue` handler (part_001:214-287).  `supply` models the uuid
generator: the head is the next fresh uuid, consumed only after the
confirmation check passes (the `uuidv4()` call at part_001:227 sits after
the early return).  `confirm` and `podUrl` come from the request body and
are tested by JavaScript truthiness. -/
def issueRoute (webid : String) (confirm : JsVal) (podUrl : Option String)
    (supply : List String) (now rand : String) (env : PodEnv) (st : PodState) :
    IssueResponse × PodState × List String :=
  if jsTruthy confirm = false then (.confirmationRequired, st, supply)
  else
    let vcId := "urn:uuid:" ++ supply.headD "00000000-0000-0000-0000-000000000000"
    let vcData : VcData :=
      { id := vcId, webid := webid, benefitData := issueBenefitData, preview := false }
    let jsonLdVc := generateJsonLdVc vcData now
    let turtleVc := generateTurtleVc vcData now rand
    let targetPodUrl :=
      match podUrl with
      | some p => if p = "" then discoverPodUrl webid else p
      | none => discoverPodUrl webid
    match storeCredential env targetPodUrl vcId (jsonLdStringify jsonLdVc)
        turtleVc webid now st with
    | (.ok _, st') =>
        (.issued vcId jsonLdVc (targetPodUrl ++ "/credentials/" ++ vcId), st', supply.tail)
    | (.error m, st') => (.failure m, st', supply.tail)

/-! ## Concrete fixtures used by the closed theorems below -/

/-- Equality of store outcomes is decidable (used by the closed theorems). -/
instance decEqExceptStore : DecidableEq (Except String StoreOk) := fun a b =>
  match a, b with
  | .ok x, .ok y =>
      if h : x = y then isTrue (by rw [h]) else isFalse (by simp [h])
  | .error x, .error y =>
      if h : x = y then isTrue (by rw [h]) else isFalse (by simp [h])
  | .ok _, .error _ => isFalse (by simp)
  | .error _, .ok _ => isFalse (by simp)

/-- A sample pod root. -/
def samplePodUrl : String := "https://pod.example/"

/-- A sample credential id. -/
def sampleVcId : String := "urn:uuid:vc1"

/-- A sample subject WebID (the one the test suite authenticates as). -/
def sampleWebid : String := "https://user.example.org/profile/card#me"

/-- A sample signed credential input with the issue path's benefit data
(components breakdown and weekly total included). -/
def sampleVc : VcData :=
  { id := sampleVcId, webid := sampleWebid, benefitData := issueBenefitData,
    preview := false }

/-- The same credential input in preview (unsigned) mode. -/
def samplePreviewVc : VcData := { sampleVc with preview := true }

/-- A credential input whose benefit-type claim value contains a double
quote. -/
def quoteVc : VcData :=
  { samplePreviewVc with
    benefitData :=
      { issueBenefitData with benefitType := "PI\"P", components := none } }

/-- A pod that accepts every write. -/
def envAllOk : PodEnv := ⟨fun _ => true⟩

/-- A pod that rejects exactly the Turtle-artifact write of the sample
credential. -/
def envNoTtl : PodEnv := ⟨fun u => !(u == ttlUrl samplePodUrl sampleVcId)⟩

/-- A pod that rejects exactly the JSON-LD-artifact write of the sample
credential. -/
def envNoJsonld : PodEnv := ⟨fun u => !(u == jsonldUrl samplePodUrl sampleVcId)⟩

/-- A pod that rejects exactly the credentials-index write. -/
def envNoIndex : PodEnv :=
  ⟨fun u => !(u == resolveUrl samplePodUrl "credentials/index.ttl")⟩

/-- A sample registry: one active credential owned by Alice. -/
def sampleRegistry : Registry :=
  [{ id := "urn:uuid:vc1", owner := "https://alice.example/profile/card#me",
     status := "active" }]

set_option maxRecDepth 1000000

/-! ## String-containment lemma kit -/

theorem startsWithC_self_append (l r : List Char) :
    startsWithC l (l ++ r) = true := by
  induction l with
  | nil => rfl
  | cons a as ih => simp [startsWithC, ih]

theorem startsWithC_append_of (sub t r : List Char)
    (h : startsWithC sub t = true) : startsWithC sub (t ++ r) = true := by
  induction sub generalizing t with
  | nil => rfl
  | cons a as ih =>
    cases t with
    | nil => simp [startsWithC] at h
    | cons b bs =>
      simp only [startsWithC, Bool.and_eq_true, beq_iff_eq] at h
      simp only [List.cons_append, startsWithC, Bool.and_eq_true, beq_iff_eq]
      exact ⟨h.1, ih bs h.2⟩

theorem hasSubC_cons_of (sub l : List Char) (c : Char)
    (h : hasSubC sub l = true) : hasSubC sub (c :: l) = true := by
  simp [hasSubC, h]

theorem hasSubC_nil_sub (l : List Char) : hasSubC [] l = true := by
  cases l with
  | nil => rfl
  | cons c cs => simp [hasSubC, startsWithC]

theorem hasSubC_self_append (sub r : List Char) :
    hasSubC sub (sub ++ r) = true := by
  cases sub with
  | nil =>
    cases r with
    | nil => rfl
    | cons c cs => simp [hasSubC, startsWithC]
  | cons s ss =>
    simp only [List.cons_append, hasSubC]
    have := startsWithC_self_append (s :: ss) r
    simp only [List.cons_append] at this
    simp [this]

theorem hasSubC_append_right (a sub l : List Char)
    (h : hasSubC sub l = true) : hasSubC sub (a ++ l) = true := by
  induction a with
  | nil => simpa using h
  | cons c cs ih => exact hasSubC_cons_of _ _ _ ih

theorem hasSubC_append_left (sub l r : List Char)
    (h : hasSubC sub l = true) : hasSubC sub (l ++ r) = true := by
  induction l with
  | nil =>
    cases sub with
    | nil => exact hasSubC_nil_sub r
    | cons a as => simp [hasSubC, startsWithC] at h
  | cons c cs ih =>
    simp only [hasSubC, Bool.or_eq_true] at h
    rcases h with h | h
    · simp only [List.cons_append, hasSubC, Bool.or_eq_true]
      exact Or.inl (startsWithC_append_of _ _ _ h)
    · simp only [List.cons_append, hasSubC, Bool.or_eq_true]
      exact Or.inr (ih h)

theorem toList_append (a b : String) :
    (a ++ b).toList = a.toList ++ b.toList := by
  simp [String.toList]

theorem strContains_self (s : String) : strContains s s = true := by
  unfold strContains
  have := hasSubC_self_append s.toList []
  simpa using this

theorem strContains_append_l (x y sub : String)
    (h : strContains x sub = true) : strContains (x ++ y) sub = true := by
  unfold strContains at h ⊢
  rw [toList_append]
  exact hasSubC_append_left _ _ _ h

theorem strContains_append_r (x y sub : String)
    (h : strContains y sub = true) : strContains (x ++ y) sub = true := by
  unfold strContains at h ⊢
  rw [toList_append]
  exact hasSubC_append_right _ _ _ h

/-! ## Helper lemmas about the best-effort pod steps -/

theorem mem_updateCredentialsIndex_written (env : PodEnv) (p v n : String)
    (st : PodState) (x : String × String × String) (h : x ∈ st.written) :
    x ∈ (updateCredentialsIndex env p v n st).written := by
  by_cases hc : env.putOk (resolveUrl p "credentials/index.ttl") = true
  · simp [updateCredentialsIndex, putResource, hc, List.mem_append, h]
  · simp [updateCredentialsIndex, putResource, hc, h]

theorem mem_setCredentialPermissions_written (env : PodEnv) (p v w : String)
    (st : PodState) (x : String × String × String) (h : x ∈ st.written) :
    x ∈ (setCredentialPermissions env p v w st).written := by
  by_cases hc : env.putOk (resolveUrl p ("credentials/" ++ v ++ ".jsonld.acl")) = true
  · simp [setCredentialPermissions, putResource, hc, List.mem_append, h]
  · simp [setCredentialPermissions, putResource, hc, h]

/-! ## Claim C1 — cross-format equivalence -/

/-- C1, counterexample: the claim says every claim name/value present in the
JSON-LD `credentialSubject` — including the components breakdown when
present — is also bound in the Turtle output.  For the issue path's
credential the JSON-LD subject carries the `components` breakdown, yet the
Turtle text mentions neither the key nor any component value: the Turtle
template (part_002:333-359) never reads `benefitData.components`. -/
theorem C1_counterexample :
    ("components", JValue.obj
        [("dailyLiving", "Standard - £68.10"), ("mobility", "Enhanced - £94.80")])
      ∈ (generateJsonLdVc sampleVc "T0").credentialSubject ∧
    strContains (generateTurtleVc sampleVc "T0" "RR") "dailyLiving" = false ∧
    strContains (generateTurtleVc sampleVc "T0" "RR") "Standard - £68.10" = false ∧
    strContains (generateTurtleVc sampleVc "T0" "RR") "components" = false := by
  refine ⟨by decide, by decide, by decide, by decide⟩

/-- C1 (amended): the JSON-LD and Turtle encodings of the same credential
data agree on the credential `id`, the `subjectId`, and the base claim
values — `benefitType`, `amount`, `assessmentDate`, and `totalWeeklyAmount`
when present — but the `components` breakdown appears only in the JSON-LD
`credentialSubject`: the Turtle output is entirely independent of it. -/
theorem C1_cross_format_fields (vc : VcData) (now rand : String) :
    (generateJsonLdVc vc now).id = vc.id ∧
    ("id", JValue.str vc.webid) ∈ (generateJsonLdVc vc now).credentialSubject ∧
    ("benefitType", JValue.str vc.benefitData.benefitType)
      ∈ (generateJsonLdVc vc now).credentialSubject ∧
    ("amount", JValue.str vc.benefitData.amount)
      ∈ (generateJsonLdVc vc now).credentialSubject ∧
    ("assessmentDate", JValue.str vc.benefitData.assessmentDate)
      ∈ (generateJsonLdVc vc now).credentialSubject ∧
    strContains (generateTurtleVc vc now rand) ("<" ++ vc.id ++ ">") = true ∧
    strContains (generateTurtleVc vc now rand)
      ("cred:credentialSubject <" ++ vc.webid ++ ">") = true ∧
    strContains (generateTurtleVc vc now rand)
      ("schema:benefitType \"" ++ vc.benefitData.benefitType ++ "\"") = true ∧
    strContains (generateTurtleVc vc now rand)
      ("schema:amount \"" ++ vc.benefitData.amount ++ "\"") = true ∧
    strContains (generateTurtleVc vc now rand)
      ("schema:dateCreated \"" ++ vc.benefitData.assessmentDate ++ "\"") = true ∧
    (∀ t, vc.benefitData.totalWeeklyAmount = some t →
      ("totalWeeklyAmount", JValue.str t)
        ∈ (generateJsonLdVc vc now).credentialSubject ∧
      strContains (generateTurtleVc vc now rand)
        ("schema:totalAmount \"" ++ t ++ "\"") = true) ∧
    (∀ c, generateTurtleVc
        { vc with benefitData := { vc.benefitData with components := c } } now rand =
      generateTurtleVc vc now rand) := by
  have hsub : (generateJsonLdVc vc now).credentialSubject = credentialSubjectFields vc := rfl
  refine ⟨rfl, ?_, ?_, ?_, ?_, ?_, ?_, ?_, ?_, ?_, ?_, ?_⟩
  · rw [hsub]
    rcases htot : vc.benefitData.totalWeeklyAmount with _ | t <;>
      rcases hcomp : vc.benefitData.components with _ | c <;>
        simp [credentialSubjectFields, htot, hcomp]
  · rw [hsub]
    rcases htot : vc.benefitData.totalWeeklyAmount with _ | t <;>
      rcases hcomp : vc.benefitData.components with _ | c <;>
        simp [credentialSubjectFields, htot, hcomp]
  · rw [hsub]
    rcases htot : vc.benefitData.totalWeeklyAmount with _ | t <;>
      rcases hcomp : vc.benefitData.components with _ | c <;>
        simp [credentialSubjectFields, htot, hcomp]
  · rw [hsub]
    rcases htot : vc.benefitData.totalWeeklyAmount with _ | t <;>
      rcases hcomp : vc.benefitData.components with _ | c <;>
        simp [credentialSubjectFields, htot, hcomp]
  · simp only [generateTurtleVc, turtleBody]
    apply strContains_append_l
    apply strContains_append_l
    apply strContains_append_r
    apply strContains_append_l
    apply strContains_append_l
    apply strContains_append_l
    apply strContains_append_l
    apply strContains_append_l
    apply strContains_append_l
    apply strContains_append_l
    apply strContains_append_l
    apply strContains_append_l
    apply strContains_append_l
    exact strContains_self _
  · simp only [generateTurtleVc, turtleBody]
    apply strContains_append_l
    apply strContains_append_l
    apply strContains_append_r
    apply strContains_append_l
    apply strContains_append_l
    apply strContains_append_l
    apply strContains_append_l
    apply strContains_append_l
    apply strContains_append_l
    apply strContains_append_l
    apply strContains_append_l
    apply strContains_append_r
    exact strContains_self _
  · simp only [generateTurtleVc, turtleBody]
    apply strContains_append_l
    apply strContains_append_l
    apply strContains_append_r
    apply strContains_append_l
    apply strContains_append_l
    apply strContains_append_l
    apply strContains_append_l
    apply strContains_append_l
    apply strContains_append_l
    apply strContains_append_r
    exact strContains_self _
  · simp only [generateTurtleVc, turtleBody]
    apply strContains_append_l
    apply strContains_append_l
    apply strContains_append_r
    apply strContains_append_l
    apply strContains_append_l
    apply strContains_append_l
    apply strContains_append_l
    apply strContains_append_r
    exact strContains_self _
  · simp only [generateTurtleVc, turtleBody]
    apply strContains_append_l
    apply strContains_append_l
    apply strContains_append_r
    apply strContains_append_l
    apply strContains_append_l
    apply strContains_append_r
    exact strContains_self _
  · intro t ht
    constructor
    · rw [hsub]
      rcases hcomp : vc.benefitData.components with _ | c <;>
        simp [credentialSubjectFields, ht, hcomp]
    · simp only [generateTurtleVc, turtleBody, ht, totalAmountPart]
      apply strContains_append_l
      apply strContains_append_l
      apply strContains_append_r
      apply strContains_append_r
      apply strContains_append_r
      exact strContains_self _
  · intro c
    rfl

/-- C1, witness: the amended theorem instantiated on the issue path's
credential, discharging the `totalWeeklyAmount = some _` hypothesis. -/
theorem C1_cross_format_fields_witness :
    sampleVc.benefitData.totalWeeklyAmount = some "£162.90" ∧
    (("totalWeeklyAmount", JValue.str "£162.90")
        ∈ (generateJsonLdVc sampleVc "T0").credentialSubject ∧
      strContains (generateTurtleVc sampleVc "T0" "RR")
        ("schema:totalAmount \"" ++ "£162.90" ++ "\"") = true) :=
  ⟨rfl,
   (C1_cross_format_fields sampleVc "T0" "RR").2.2.2.2.2.2.2.2.2.2.1 "£162.90" rfl⟩

/-! ## Claim C2 — partial-write reporting -/

/-- C2, counterexample: with the JSON-LD write succeeding and the Turtle
write failing, `storeCredential` reports the single generic total-failure
error — and that outcome is identical to the one produced when the FIRST
write fails, so it cannot name the missing format, contrary to the claim's
`PartialWrite` report. -/
theorem C2_counterexample :
    (storeCredential envNoTtl samplePodUrl sampleVcId "J" "T" sampleWebid "T0" ⟨[]⟩).1 =
      Except.error "Failed to store credential: HTTP PUT failed: request failed" ∧
    (storeCredential envNoJsonld samplePodUrl sampleVcId "J" "T" sampleWebid "T0" ⟨[]⟩).1 =
      (storeCredential envNoTtl samplePodUrl sampleVcId "J" "T" sampleWebid "T0" ⟨[]⟩).1 := by
  exact ⟨by decide, by decide⟩

/-- C2 (amended): if the JSON-LD write succeeds and the Turtle write fails,
`storeCredential` reports the issuance as a total failure with the generic
error `Failed to store credential: …` that does not identify the missing
format; the already-written JSON-LD artifact is not rolled back and remains
in the pod. -/
theorem C2_second_write_failure_is_total (env : PodEnv)
    (podUrl vcId j t webid now : String) (st : PodState)
    (h1 : env.putOk (jsonldUrl podUrl vcId) = true)
    (h2 : env.putOk (ttlUrl podUrl vcId) = false) :
    (storeCredential env podUrl vcId j t webid now st).1 =
      Except.error "Failed to store credential: HTTP PUT failed: request failed" ∧
    (jsonldUrl podUrl vcId, j, "application/ld+json") ∈
      (storeCredential env podUrl vcId j t webid now st).2.written := by
  constructor
  · simp [storeCredential, putResource, h1, h2]
  · simp [storeCredential, putResource, h1, h2]

/-- C2, witness. -/
theorem C2_second_write_failure_is_total_witness :
    envNoTtl.putOk (jsonldUrl samplePodUrl sampleVcId) = true ∧
    envNoTtl.putOk (ttlUrl samplePodUrl sampleVcId) = false ∧
    ((storeCredential envNoTtl samplePodUrl sampleVcId "J" "T" sampleWebid "T0" ⟨[]⟩).1 =
        Except.error "Failed to store credential: HTTP PUT failed: request failed" ∧
      (jsonldUrl samplePodUrl sampleVcId, "J", "application/ld+json") ∈
        (storeCredential envNoTtl samplePodUrl sampleVcId "J" "T" sampleWebid "T0" ⟨[]⟩).2.written) :=
  ⟨by decide, by decide,
   C2_second_write_failure_is_total envNoTtl samplePodUrl sampleVcId "J" "T"
     sampleWebid "T0" ⟨[]⟩ (by decide) (by decide)⟩

/-! ## Claim C3 — unsigned credentials carry no proof block -/

/-- C3: for a preview (unsigned) credential the JSON-LD document has no
`proof` key at all and the Turtle text consists of just the header, the
statement body and the final period — the `cred:proof` block is entirely
absent, as witnessed concretely by the substring check. -/
theorem C3_unsigned_has_no_proof (vc : VcData) (now rand : String)
    (h : vc.preview = true) :
    (generateJsonLdVc vc now).proof = none ∧
    generateTurtleVc vc now rand = turtleHeader ++ turtleBody vc now ++ " ." ∧
    strContains (generateTurtleVc samplePreviewVc "2025-01-15T10:30:00Z" "aa")
      "cred:proof" = false := by
  refine ⟨?_, ?_, by decide⟩
  · simp [generateJsonLdVc, h]
  · simp [generateTurtleVc, h]

/-- C3, witness. -/
theorem C3_unsigned_has_no_proof_witness :
    samplePreviewVc.preview = true ∧
    ((generateJsonLdVc samplePreviewVc "T0").proof = none ∧
      generateTurtleVc samplePreviewVc "T0" "RR" =
        turtleHeader ++ turtleBody samplePreviewVc "T0" ++ " ." ∧
      strContains (generateTurtleVc samplePreviewVc "2025-01-15T10:30:00Z" "aa")
        "cred:proof" = false) :=
  ⟨rfl, C3_unsigned_has_no_proof samplePreviewVc "T0" "RR" rfl⟩

/-! ## Claim C4 — purity of the encoders -/

/-- C4, counterexample: encoding the same unsigned credential at two
different clock instants yields different output in both formats — the
encoders stamp `issuanceDate`/`dc:created` from the wall clock at encoding
time (part_002:301, 344-345), so they are not clock-independent. -/
theorem C4_counterexample :
    generateJsonLdVc samplePreviewVc "2025-01-15T10:30:00Z" ≠
      generateJsonLdVc samplePreviewVc "2025-01-15T10:30:01Z" ∧
    generateTurtleVc samplePreviewVc "2025-01-15T10:30:00Z" "RR" ≠
      generateTurtleVc samplePreviewVc "2025-01-15T10:30:01Z" "RR" := by
  exact ⟨by decide, by decide⟩

/-- C4 (amended): both encoders are pure functions of the credential's
fields AND the encoding-time clock: at a fixed clock instant, encoding an
unsigned credential is independent of the signature randomness (and the
JSON-LD encoder takes no randomness at all), but the output does depend on
the clock, which becomes the document's `issuanceDate`. -/
theorem C4_pure_given_clock (vc : VcData) (now r1 r2 : String)
    (h : vc.preview = true) :
    generateTurtleVc vc now r1 = generateTurtleVc vc now r2 ∧
    (generateJsonLdVc vc now).issuanceDate = now := by
  constructor
  · simp [generateTurtleVc, h]
  · rfl

/-- C4, witness. -/
theorem C4_pure_given_clock_witness :
    samplePreviewVc.preview = true ∧
    (generateTurtleVc samplePreviewVc "T0" "r1" =
        generateTurtleVc samplePreviewVc "T0" "r2" ∧
      (generateJsonLdVc samplePreviewVc "T0").issuanceDate = "T0") :=
  ⟨rfl, C4_pure_given_clock samplePreviewVc "T0" "r1" "r2" rfl⟩

/-! ## Claim C5 — index-update failure -/

/-- C5, counterexample: when the index write fails after both format writes
succeeded, the overall result is success — but it is IDENTICAL to the
fully-successful result: no `indexUpdated=false` field (or any other trace
of the index failure) is surfaced; `updateCredentialsIndex` swallows the
failure with only a log line (part_002:163-166), while the index entry is
indeed missing from the pod and both artifacts are present. -/
theorem C5_counterexample :
    (storeCredential envNoIndex samplePodUrl sampleVcId "J" "T" sampleWebid "T0" ⟨[]⟩).1 =
      (storeCredential envAllOk samplePodUrl sampleVcId "J" "T" sampleWebid "T0" ⟨[]⟩).1 ∧
    (storeCredential envNoIndex samplePodUrl sampleVcId "J" "T" sampleWebid "T0" ⟨[]⟩).1 =
      Except.ok { success := true,
                  jsonldLocation := jsonldUrl samplePodUrl sampleVcId,
                  turtleLocation := ttlUrl samplePodUrl sampleVcId } ∧
    (resolveUrl samplePodUrl "credentials/index.ttl",
        indexEntryText samplePodUrl sampleVcId "T0", "text/turtle") ∉
      (storeCredential envNoIndex samplePodUrl sampleVcId "J" "T" sampleWebid "T0" ⟨[]⟩).2.written ∧
    (jsonldUrl samplePodUrl sampleVcId, "J", "application/ld+json") ∈
      (storeCredential envNoIndex samplePodUrl sampleVcId "J" "T" sampleWebid "T0" ⟨[]⟩).2.written ∧
    (ttlUrl samplePodUrl sampleVcId, "T", "text/turtle") ∈
      (storeCredential envNoIndex samplePodUrl sampleVcId "J" "T" sampleWebid "T0" ⟨[]⟩).2.written := by
  refine ⟨by decide, by decide, by decide, by decide, by decide⟩

/-- C5 (amended): if the index update fails after both format writes
succeeded, the issuance still succeeds with `success = true` and both
artifacts stored (no rollback) — but the failure is swallowed silently: the
result carries no `indexUpdated` field, and is equal to the result of any
run whose two format writes succeed, whatever happens to the index or
permission writes. -/
theorem C5_index_failure_swallowed (env1 env2 : PodEnv)
    (podUrl vcId j t webid now : String) (st : PodState)
    (h1 : env1.putOk (jsonldUrl podUrl vcId) = true)
    (h2 : env1.putOk (ttlUrl podUrl vcId) = true)
    (h3 : env2.putOk (jsonldUrl podUrl vcId) = true)
    (h4 : env2.putOk (ttlUrl podUrl vcId) = true) :
    (storeCredential env1 podUrl vcId j t webid now st).1 =
      Except.ok { success := true,
                  jsonldLocation := jsonldUrl podUrl vcId,
                  turtleLocation := ttlUrl podUrl vcId } ∧
    (storeCredential env2 podUrl vcId j t webid now st).1 =
      (storeCredential env1 podUrl vcId j t webid now st).1 ∧
    (jsonldUrl podUrl vcId, j, "application/ld+json") ∈
      (storeCredential env1 podUrl vcId j t webid now st).2.written ∧
    (ttlUrl podUrl vcId, t, "text/turtle") ∈
      (storeCredential env1 podUrl vcId j t webid now st).2.written := by
  refine ⟨?_, ?_, ?_, ?_⟩
  · simp [storeCredential, putResource, h1, h2]
  · simp [storeCredential, putResource, h1, h2, h3, h4]
  · simp only [storeCredential, putResource, h1, h2, if_true]
    apply mem_setCredentialPermissions_written
    apply mem_updateCredentialsIndex_written
    simp
  · simp only [storeCredential, putResource, h1, h2, if_true]
    apply mem_setCredentialPermissions_written
    apply mem_updateCredentialsIndex_written
    simp

/-- C5, witness. -/
theorem C5_index_failure_swallowed_witness :
    envNoIndex.putOk (jsonldUrl samplePodUrl sampleVcId) = true ∧
    envNoIndex.putOk (ttlUrl samplePodUrl sampleVcId) = true ∧
    envAllOk.putOk (jsonldUrl samplePodUrl sampleVcId) = true ∧
    envAllOk.putOk (ttlUrl samplePodUrl sampleVcId) = true ∧
    ((storeCredential envNoIndex samplePodUrl sampleVcId "J" "T" sampleWebid "T0" ⟨[]⟩).1 =
        Except.ok { success := true,
                    jsonldLocation := jsonldUrl samplePodUrl sampleVcId,
                    turtleLocation := ttlUrl samplePodUrl sampleVcId } ∧
      (storeCredential envAllOk samplePodUrl sampleVcId "J" "T" sampleWebid "T0" ⟨[]⟩).1 =
        (storeCredential envNoIndex samplePodUrl sampleVcId "J" "T" sampleWebid "T0" ⟨[]⟩).1 ∧
      (jsonldUrl samplePodUrl sampleVcId, "J", "application/ld+json") ∈
        (storeCredential envNoIndex samplePodUrl sampleVcId "J" "T" sampleWebid "T0" ⟨[]⟩).2.written ∧
      (ttlUrl samplePodUrl sampleVcId, "T", "text/turtle") ∈
        (storeCredential envNoIndex samplePodUrl sampleVcId "J" "T" sampleWebid "T0" ⟨[]⟩).2.written) :=
  ⟨by decide, by decide, by decide, by decide,
   C5_index_failure_swallowed envNoIndex envAllOk samplePodUrl sampleVcId "J" "T"
     sampleWebid "T0" ⟨[]⟩ (by decide) (by decide) (by decide) (by decide)⟩

/-! ## Claim C6 — Turtle escaping of quote and newline characters -/

/-- C6, counterexample: a benefit-type value containing a double quote is
copied into the Turtle text verbatim (the unescaped `"PI"P"` appears as a
substring), and the resulting document fails the literal-delimiting scan —
it is not valid Turtle — while the same credential with well-behaved values
passes the scan.  The encoder performs no escaping. -/
theorem C6_counterexample :
    strContains (generateTurtleVc quoteVc "T0" "RR") "\"PI\"P\"" = true ∧
    ttlLiteralsOk (generateTurtleVc quoteVc "T0" "RR") = false ∧
    ttlLiteralsOk (generateTurtleVc samplePreviewVc "T0" "RR") = true := by
  refine ⟨by decide, by decide, by decide⟩

/-- C6 (amended): the Turtle encoder interpolates claim values verbatim,
with no escaping whatsoever — whatever characters a value holds, the text
`schema:… "<value>"` appears in the output with the raw value between the
quotes, so a value containing a double-quote or newline corrupts the
document's literal structure. -/
theorem C6_values_interpolated_verbatim (vc : VcData) (now rand : String) :
    strContains (generateTurtleVc vc now rand)
      ("schema:benefitType \"" ++ vc.benefitData.benefitType ++ "\"") = true ∧
    strContains (generateTurtleVc vc now rand)
      ("schema:amount \"" ++ vc.benefitData.amount ++ "\"") = true := by
  constructor
  · simp only [generateTurtleVc, turtleBody]
    apply strContains_append_l
    apply strContains_append_l
    apply strContains_append_r
    apply strContains_append_l
    apply strContains_append_l
    apply strContains_append_l
    apply strContains_append_l
    apply strContains_append_l
    apply strContains_append_l
    apply strContains_append_r
    exact strContains_self _
  · simp only [generateTurtleVc, turtleBody]
    apply strContains_append_l
    apply strContains_append_l
    apply strContains_append_r
    apply strContains_append_l
    apply strContains_append_l
    apply strContains_append_l
    apply strContains_append_l
    apply strContains_append_r
    exact strContains_self _

/-! ## Claim C7 — access grants -/

/-- C7: the ACL written alongside every persisted credential grants the
owner (the session user's webid) exactly Read, Write and Control on both
format artifacts, the fixed third party EON exactly Read, and the
authenticated-agent class exactly Read; rendering this structured document
reproduces the stored ACL text, and `setCredentialPermissions` stores
exactly that text at the credential's `.jsonld.acl` path. -/
theorem C7_access_grants (webid vcId : String) :
    (credentialAcl webid vcId).map AclAuth.modes =
      [[.read, .write, .control], [.read], [.read]] ∧
    (credentialAcl webid vcId).map AclAuth.grantee =
      [.agent webid, .agent "https://eon.co.uk/did.json",
       .agentClass "acl:AuthenticatedAgent"] ∧
    (credentialAcl webid vcId).map AclAuth.accessTo =
      [[vcId ++ ".jsonld", vcId ++ ".ttl"],
       [vcId ++ ".jsonld", vcId ++ ".ttl"],
       [vcId ++ ".jsonld", vcId ++ ".ttl"]] ∧
    renderAcl (credentialAcl sampleWebid sampleVcId) = aclText sampleWebid sampleVcId ∧
    (∀ env podUrl st,
      env.putOk (resolveUrl podUrl ("credentials/" ++ vcId ++ ".jsonld.acl")) = true →
      (setCredentialPermissions env podUrl vcId webid st).written =
        st.written ++ [(resolveUrl podUrl ("credentials/" ++ vcId ++ ".jsonld.acl"),
          aclText webid vcId, "text/turtle")]) := by
  refine ⟨rfl, rfl, rfl, by decide, ?_⟩
  intro env podUrl st h
  simp [setCredentialPermissions, putResource, h]

/-- C7, witness. -/
theorem C7_access_grants_witness :
    envAllOk.putOk (resolveUrl samplePodUrl
        ("credentials/" ++ sampleVcId ++ ".jsonld.acl")) = true ∧
    (setCredentialPermissions envAllOk samplePodUrl sampleVcId sampleWebid
        (PodState.mk [])).written =
      (PodState.mk []).written ++
        [(resolveUrl samplePodUrl ("credentials/" ++ sampleVcId ++ ".jsonld.acl"),
          aclText sampleWebid sampleVcId, "text/turtle")] :=
  ⟨by decide,
   (C7_access_grants sampleWebid sampleVcId).2.2.2.2 envAllOk samplePodUrl
     (PodState.mk []) (by decide)⟩

/-! ## Claim C8 — revoke authorization checks -/

/-- C8, counterexample: a requester who is not the credential's owner
revokes Alice's credential and gets a success response (not `Forbidden`),
and revoking an id absent from the registry also yields success (not
`NotFound`): the route (part_001:342-383) checks only that `vcId` and
`reason` are present. -/
theorem C8_counterexample :
    "https://bob.example/profile/card#me" ≠ "https://alice.example/profile/card#me" ∧
    sampleRegistry.map RegEntry.owner = ["https://alice.example/profile/card#me"] ∧
    revokeRoute sampleRegistry "https://bob.example/profile/card#me"
        (some "urn:uuid:vc1") (some "fraud") =
      (.success "urn:uuid:vc1" "https://bob.example/profile/card#me" "fraud",
       sampleRegistry) ∧
    RevokeResponse.success "urn:uuid:vc1" "https://bob.example/profile/card#me" "fraud" ≠
      RevokeResponse.forbidden ∧
    "urn:uuid:nonexistent" ∉ sampleRegistry.map RegEntry.id ∧
    revokeRoute sampleRegistry "https://alice.example/profile/card#me"
        (some "urn:uuid:nonexistent") (some "gone") =
      (.success "urn:uuid:nonexistent" "https://alice.example/profile/card#me" "gone",
       sampleRegistry) ∧
    RevokeResponse.success "urn:uuid:nonexistent"
        "https://alice.example/profile/card#me" "gone" ≠ RevokeResponse.notFound := by
  refine ⟨by decide, by decide, by decide, by decide, by decide, by decide, by decide⟩

/-- C8 (amended): the revoke route performs no ownership and no existence
check: for ANY registry, requester and credential id, as long as `vcId` and
`reason` are non-empty the route answers success (never `Forbidden` or
`NotFound`) and leaves the registry untouched. -/
theorem C8_no_ownership_or_existence_check (reg : Registry)
    (webid vcId reason : String) (h1 : vcId ≠ "") (h2 : reason ≠ "") :
    revokeRoute reg webid (some vcId) (some reason) =
      (.success vcId webid reason, reg) := by
  simp [revokeRoute, jsTruthyStr, h1, h2]

/-- C8, witness. -/
theorem C8_no_ownership_or_existence_check_witness :
    ("urn:uuid:vc1" : String) ≠ "" ∧ ("fraud" : String) ≠ "" ∧
    revokeRoute sampleRegistry "https://bob.example/profile/card#me"
        (some "urn:uuid:vc1") (some "fraud") =
      (.success "urn:uuid:vc1" "https://bob.example/profile/card#me" "fraud",
       sampleRegistry) :=
  ⟨by decide, by decide,
   C8_no_ownership_or_existence_check sampleRegistry
     "https://bob.example/profile/card#me" "urn:uuid:vc1" "fraud"
     (by decide) (by decide)⟩

/-! ## Claim C9 — empty revocation reason -/

/-- C9: a revoke call with an empty (or missing) reason is rejected with the
400 `Revocation reason required` response (the spec's `InvalidReason`), and
the registry — in particular any entry's `active` status — passes through
completely unchanged: the route writes nothing. -/
theorem C9_empty_reason_rejected (reg : Registry) (webid vcId : String)
    (h : vcId ≠ "") :
    revokeRoute reg webid (some vcId) (some "") = (.missingReason, reg) ∧
    revokeRoute reg webid (some vcId) none = (.missingReason, reg) := by
  constructor
  · simp [revokeRoute, jsTruthyStr, h]
  · simp [revokeRoute, jsTruthyStr, h]

/-- C9, witness. -/
theorem C9_empty_reason_rejected_witness :
    ("urn:uuid:vc1" : String) ≠ "" ∧
    (revokeRoute sampleRegistry sampleWebid (some "urn:uuid:vc1") (some "") =
        (.missingReason, sampleRegistry) ∧
      revokeRoute sampleRegistry sampleWebid (some "urn:uuid:vc1") none =
        (.missingReason, sampleRegistry)) :=
  ⟨by decide,
   C9_empty_reason_rejected sampleRegistry sampleWebid "urn:uuid:vc1" (by decide)⟩

/-! ## Claim C10 — confirmation gate on issuance -/

/-- C10, counterexample: a request body that does NOT set `confirm` to
`true` — it sets the string `"yes"` — is nevertheless not rejected: the
route tests JavaScript truthiness (`if (!confirm)`, part_001:218), so the
issuance proceeds and writes to the pod. -/
theorem C10_counterexample :
    JsVal.str "yes" ≠ JsVal.boolean true ∧
    (issueRoute sampleWebid (.str "yes") (some samplePodUrl)
        ["11111111-1111-1111-1111-111111111111"] "T0" "RR" envAllOk ⟨[]⟩).1 ≠
      IssueResponse.confirmationRequired ∧
    (issueRoute sampleWebid (.str "yes") (some samplePodUrl)
        ["11111111-1111-1111-1111-111111111111"] "T0" "RR" envAllOk ⟨[]⟩).2.1.written ≠
      [] := by
  refine ⟨by decide, by decide, by decide⟩

/-- C10 (amended): whenever the body's `confirm` value is FALSY (absent,
`null`, `false`, `0` or the empty string), the issue route answers 400
`Confirmation required` and stops before anything happens: no uuid is drawn
from the supply, and the pod state is untouched — no format artifact, index
entry or access grant is written.  (Any truthy value — not only `true` —
passes the gate.) -/
theorem C10_falsy_confirm_rejected (webid : String) (confirm : JsVal)
    (podUrl : Option String) (supply : List String) (now rand : String)
    (env : PodEnv) (st : PodState) (h : jsTruthy confirm = false) :
    issueRoute webid confirm podUrl supply now rand env st =
      (.confirmationRequired, st, supply) := by
  simp [issueRoute, h]

/-- C10, witness. -/
theorem C10_falsy_confirm_rejected_witness :
    jsTruthy (JsVal.boolean false) = false ∧
    issueRoute sampleWebid (JsVal.boolean false) none
        ["11111111-1111-1111-1111-111111111111"] "T0" "RR" envAllOk ⟨[]⟩ =
      (.confirmationRequired, ⟨[]⟩, ["11111111-1111-1111-1111-111111111111"]) :=
  ⟨rfl,
   C10_falsy_confirm_rejected sampleWebid (JsVal.boolean false) none
     ["11111111-1111-1111-1111-111111111111"] "T0" "RR" envAllOk ⟨[]⟩ rfl⟩

end PipVc
